import Mathlib

/-!
Verification of the Kids-game screen/resource lifecycle manager.

This file gives a shallow embedding of the core of the repository:
the `App` controller (`ensureCSS`, `untrackCSS`, `generateHomeScreen`,
`setupFloorListeners`, `loadScreen`), the global error facility
(`handleError` from `utils/errorHandler.js`), the helper functions
(`shuffleArray`, `unloadCSS` from the documented helpers module), and
the `PopUp` singleton constructor.

Modelling choices:
* The browser document is a record `St`: the stylesheet link hrefs
  attached to the head, the tracked `loadedCSS` set (a duplicate-free
  list), the body content, the wired floor listeners, the loading
  indicator / placeholder flags, and an event trace recording error
  reports (`console.error` + user banner), warnings and the
  last-resort redirect.
* Asynchronous outcomes that depend on the network (stylesheet load,
  dynamic `import`, `startGame`) are supplied by an oracle `Env`.
* `document.body.innerHTML = generateHomeScreen()` is modelled by the
  structured body value `BodyContent.home games`; the exact markup
  string is `generateHomeScreen games`, whose floor list is
  `floorDivs games`.  A `querySelector('[data-game="g"]')` on the
  parsed home markup succeeds exactly when `g` is a registry key.
* JS `Math.floor(Math.random() * (i+1))` is modelled by `r i % (i+1)`
  for an arbitrary `r : Nat → Nat`.
-/

/-- The error categories of `ErrorTypes` in `utils/errorHandler.js`,
plus `unknownType` for non-`GameError` values (logged as `'UNKNOWN'`). -/
inductive EType where
  | assetLoading
  | gameInit
  | runtime
  | network
  | resource
  | unknownType
deriving DecidableEq, Repr

/-- A thrown JS value: either a `GameError` (message, type) or a plain
`Error`. The `details`/`timestamp` fields play no role in the claims. -/
inductive JsError where
  | gameError (msg : String) (etype : EType)
  | plainError (msg : String)
deriving DecidableEq, Repr

/-- The `type` field read by `handleError`'s log (`'UNKNOWN'` for
non-`GameError` values). -/
def errorKind : JsError → EType
  | .gameError _ t => t
  | .plainError _ => .unknownType

/-- The localized banner text chosen by the `switch` in `handleError`. -/
def bannerText : JsError → String
  | .gameError _ .assetLoading =>
      "Не можахме да заредим необходимите ресурси. Моля, опитайте отново."
  | .gameError _ .gameInit =>
      "Възникна проблем при стартиране на играта. Моля, опитайте отново."
  | .gameError _ .runtime => "Нещо се обърка. Нека опитаме отново!"
  | .gameError _ .network => "Проблем с връзката. Моля, проверете интернет връзката си."
  | .gameError _ .resource => "Липсват някои ресурси. Моля, презаредете страницата."
  | .gameError _ .unknownType => "Възникна неочаквана грешка. Моля, опитайте отново."
  | .plainError _ => "Възникна неочаквана грешка. Моля, опитайте отново."

/-- Observable events: a `console.error` log entry from `handleError`
(with its context label and error kind), the user-facing banner, a
`console.warn`, and the last-resort `window.location.href = '/'`. -/
inductive Ev where
  | logged (ctx : String) (k : EType)
  | banner (msg : String)
  | warned (msg : String)
  | redirect
deriving DecidableEq, Repr

/-- One entry of the generated game registry:
`{ script: './games/g/g.js', style: 'games/g/g.css' }`. -/
structure GameEntry where
  script : String
  style : String
deriving DecidableEq, Repr

/-- The `games` object of `generatedGames.js`: an insertion-ordered
mapping from game identifiers to their entries. -/
abbrev Registry := List (String × GameEntry)

/-- Document body content.  `home games` is the parsed result of
`document.body.innerHTML = generateHomeScreen()`, `cleared` is
`innerHTML = ''`, `gameScreen id` is the markup rendered by the game's
`startGame`. -/
inductive BodyContent where
  | initial
  | home (games : Registry)
  | cleared
  | gameScreen (id : String)
deriving DecidableEq, Repr

/-- The document/application state visible to the embedded operations. -/
structure St where
  /-- hrefs of stylesheet `link` elements in `document.head`, in order. -/
  headLinks : List String
  /-- the `App.loadedCSS` tracked set (duplicate-free list). -/
  loadedCSS : List String
  /-- the document body content. -/
  body : BodyContent
  /-- game ids whose floor element currently has a click listener. -/
  listeners : List String
  /-- whether the loading screen is shown. -/
  loadingVisible : Bool
  /-- whether the transitional placeholder div is attached. -/
  placeholder : Bool
  /-- whether `homeBackgroundMusic` is playing. -/
  musicPlaying : Bool
  /-- whether the last-resort navigation to `/` happened. -/
  redirected : Bool
  /-- the cached `this.screens.home` markup. -/
  screensHome : Option String
  /-- trace of observable events, oldest first. -/
  trace : List Ev
deriving DecidableEq, Repr

/-- Oracle for the asynchronous outcomes: whether the stylesheet at a
given (normalized) href loads, whether `import(script)` resolves, and
whether the imported module's `startGame()` returns normally. -/
structure Env where
  cssOk : String → Bool
  importOk : String → Bool
  startOk : String → Bool

/-- `handleError(error, context, fallback)` from `utils/errorHandler.js`:
log with context, show the kind-mapped banner, then run the recovery
callback; if the callback throws (`Bool` result `true`), catch it and
navigate to the application root.  The function never propagates an
exception (it is total). -/
def handleError (e : JsError) (ctx : String) (fb : Option (St → St × Bool)) (st : St) : St :=
  let st1 : St :=
    { st with trace := st.trace ++ [Ev.logged ctx (errorKind e), Ev.banner (bannerText e)] }
  match fb with
  | none => st1
  | some f =>
      let r := f st1
      if r.2 then { r.1 with redirected := true, trace := r.1.trace ++ [Ev.redirect] } else r.1

/-- ASCII whitespace recognised by the model of `String.prototype.trim`. -/
def isJsSpace (c : Char) : Bool := c == ' ' || c == '\t' || c == '\n' || c == '\r'

/-- Drop whitespace from both ends, as `cssPath.trim()`. -/
def trimCharsL (l : List Char) : List Char :=
  ((l.dropWhile isJsSpace).reverse.dropWhile isJsSpace).reverse

/-- Drop one leading `'/'`, as the regex `/^\//`. -/
def stripSlashL : List Char → List Char
  | '/' :: r => r
  | l => l

/-- `cssPath.trim().replace(/^\/|\/$/g, '')` from `App.ensureCSS`:
trim, then strip one leading and one trailing slash. -/
def normPath (p : String) : String :=
  let t := trimCharsL p.toList
  let t := stripSlashL t
  ⟨(stripSlashL t.reverse).reverse⟩

/-- `filename.replace(/^\//, '')` from `helpers.unloadCSS`. -/
def jsStripLead (s : String) : String := ⟨stripSlashL s.toList⟩

/-- `pat` is a prefix of `l` (decision procedure). -/
def hasPrefixL : List Char → List Char → Bool
  | _, [] => true
  | [], _ :: _ => false
  | c :: cs, p :: ps => c == p && hasPrefixL cs ps

/-- `pat` occurs as a contiguous substring of `hay`. -/
def hasSubstrL (hay pat : List Char) : Bool :=
  match hay with
  | [] => pat.isEmpty
  | _ :: t => hasPrefixL hay pat || hasSubstrL t pat

/-- JS `hay.includes(needle)`. -/
def strIncludes (hay needle : String) : Bool := hasSubstrL hay.toList needle.toList

/-- `App.ensureCSS(cssPath)` (documented variant with normalization):
normalize the path; if tracked, return; if an attached link already
contains the normalized path, warn and resolve without tracking;
otherwise attach a link and either track it (load fires) or forward a
`RESOURCE` `GameError` to `handleError` (error fires).  The function
never rejects: the `catch` routes every failure into `handleError`. -/
def ensureCSS (env : Env) (cssPath : String) (st : St) : St :=
  let n := normPath cssPath
  if st.loadedCSS.contains n then st
  else if st.headLinks.any (fun l => strIncludes l n) then
    { st with trace := st.trace ++ [Ev.warned ("Duplicate CSS detected: " ++ n)] }
  else if env.cssOk n then
    { st with headLinks := st.headLinks ++ [n], loadedCSS := st.loadedCSS ++ [n] }
  else
    handleError (.gameError ("Failed to load CSS: " ++ n) .resource) "App.ensureCSS" none
      { st with headLinks := st.headLinks ++ [n] }

/-- `App.untrackCSS(cssPath)`: delete the path from the tracked set if
present. -/
def untrackCSS (cssPath : String) (st : St) : St :=
  if st.loadedCSS.contains cssPath then
    { st with loadedCSS := st.loadedCSS.erase cssPath }
  else st

/-- `data-game="gid"`. -/
def dataAttr (gid : String) : String := "data-game=\"" ++ gid ++ "\""

/-- `'gameN'.replace('game', '')`: replace the first occurrence of
`pat` in `l`. -/
def replaceFirstAux (pat repl : List Char) : List Char → List Char
  | [] => []
  | c :: rest =>
      if hasPrefixL (c :: rest) pat then repl ++ (c :: rest).drop pat.length
      else c :: replaceFirstAux pat repl rest

/-- JS `s.replace(pat, repl)` for a string pattern (first occurrence only). -/
def jsReplaceFirst (s pat repl : String) : String :=
  ⟨replaceFirstAux pat.toList repl.toList s.toList⟩

/-- One floor div of the home markup. -/
def floorDiv (gameId : String) : String :=
  "<div class=\"floor\" " ++ dataAttr gameId ++ ">Етаж "
    ++ jsReplaceFirst gameId "game" "" ++ "</div>"

/-- `Object.keys(games).reverse()`: the floor ids in rendered order. -/
def homeFloorIds (games : Registry) : List String := (games.map Prod.fst).reverse

/-- The floor divs of the home markup, in rendered order. -/
def floorDivs (games : Registry) : List String := (homeFloorIds games).map floorDiv

/-- `App.generateHomeScreen()`: the home markup string. -/
def generateHomeScreen (games : Registry) : String :=
  "\n            <div class=\"container\">\n                <img src=\"logo.png\" alt=\"Logo\">\n                <div class=\"building\">\n                    "
    ++ String.join (floorDivs games)
    ++ "\n                </div>\n            </div>\n        "

/-- `document.querySelector('[data-game="gid"]')` finds a floor element
exactly when the body holds the parsed home markup and `gid` is a
registry key. -/
def floorQuery (b : BodyContent) (gid : String) : Bool :=
  match b with
  | .home games => (games.map Prod.fst).contains gid
  | _ => false

/-- `App.setupFloorListeners()`: for each registry key whose floor
element exists, add a click listener. -/
def setupFloorListeners (games : Registry) (st : St) : St :=
  { st with listeners :=
      st.listeners ++ (games.map Prod.fst).filter (fun gid => floorQuery st.body gid) }

/-- `document.body.innerHTML = <home markup>`: replaces the body (which
destroys the placeholder overlay and all existing listeners). -/
def setBodyHome (games : Registry) (st : St) : St :=
  { st with body := .home games, listeners := [], placeholder := false }

/-- `document.body.innerHTML = ''`. -/
def clearBody (st : St) : St :=
  { st with body := .cleared, listeners := [], placeholder := false }

/-- The home-rendering sequence shared by the `'home'` branch of
`loadScreen` and its recovery callback: regenerate `screens.home`,
assign it to the body and wire the floor listeners. -/
def homeRender (games : Registry) (st : St) : St :=
  setupFloorListeners games
    (setBodyHome games { st with screensHome := some (generateHomeScreen games) })

/-- The recovery callback passed by `loadScreen` to `handleError`
(it never throws). -/
def homeFallback (games : Registry) : St → St × Bool :=
  fun st => (homeRender games st, false)

/-- The `finally` block of `loadScreen`: hide the loading screen and
remove the placeholder if still present. -/
def loadScreenFinally (st : St) : St :=
  let st1 : St := { st with loadingVisible := false }
  if st1.placeholder then { st1 with placeholder := false } else st1

/-- The `try` block of `App.loadScreen(screenId)`: returns the state
reached together with the error thrown, if any.  `ensureCSS` never
throws; the only throw sites are the registry miss (`RESOURCE`) and
the inner catch around `import`/`startGame` (`GAME_INITIALIZATION`). -/
def loadScreenCore (env : Env) (games : Registry) (screenId : String) (st : St) :
    St × Option JsError :=
  let st1 : St := { st with placeholder := true }
  let st2 := ensureCSS env "style.css" st1
  let st3 := ensureCSS env "components/loadingScreen/loadingScreen.css" st2
  if screenId = "home" then
    let st4 := homeRender games st3
    ({ st4 with musicPlaying := true }, none)
  else
    let st4 : St := { st3 with loadingVisible := true }
    match games.lookup screenId with
    | some entry =>
        let st5 : St := { st4 with musicPlaying := false }
        let st6 := ensureCSS env entry.style st5
        if env.importOk entry.script then
          let st7 := clearBody st6
          if env.startOk entry.script then
            ({ st7 with body := .gameScreen screenId }, none)
          else
            (st7, some (.gameError "Failed to load game module" .gameInit))
        else
          (st6, some (.gameError "Failed to load game module" .gameInit))
    | none => (st4, some (.gameError "Game not found" .resource))

/-- `App.loadScreen(screenId)`: run the `try` block, route any thrown
error to `handleError` with the home-recovery callback, then run the
`finally` block. -/
def loadScreen (env : Env) (games : Registry) (screenId : String) (st : St) : St :=
  let r := loadScreenCore env games screenId st
  let st2 :=
    match r.2 with
    | none => r.1
    | some e => handleError e "app.loadScreen" (some (homeFallback games)) r.1
  loadScreenFinally st2

/-- Is an event a `handleError` log entry (one per report)? -/
def loggedOnly : Ev → Bool
  | Ev.logged _ _ => true
  | _ => false

/-- Is an event a log entry of the given kind? -/
def loggedKind (k : EType) : Ev → Bool
  | Ev.logged _ k2 => k2 == k
  | _ => false

/-- Number of error reports emitted through `handleError` so far. -/
def reportCount (st : St) : Nat := (st.trace.filter loggedOnly).length

/-- Number of error reports of a given kind. -/
def kindCount (k : EType) (st : St) : Nat := (st.trace.filter (loggedKind k)).length

/-- `unloadCSS(filename)` from the documented helpers module: reject an
empty filename (caught and reported), strip one leading slash, detach
every stylesheet link whose href contains the filename and untrack it;
if none matched, `console.warn` and continue (non-fatal). -/
def unloadCSS (filename : String) (st : St) : St :=
  if filename = "" then
    handleError (.gameError "No filename provided for CSS unloading" .resource)
      "helpers.unloadCSS" none st
  else
    let n := jsStripLead filename
    if st.headLinks.any (fun l => strIncludes l n) then
      untrackCSS n { st with headLinks := st.headLinks.filter (fun l => !(strIncludes l n)) }
    else
      { st with trace := st.trace ++ [Ev.warned ("CSS file not found: " ++ n)] }

/-- Swap the elements at positions `i` and `j`
(`[array[i], array[j]] = [array[j], array[i]]`); out-of-range indices
leave the list unchanged. -/
def listSwap {α : Type} (l : List α) (i j : Nat) : List α :=
  match l.get? i, l.get? j with
  | some a, some b => (l.set i b).set j a
  | _, _ => l

/-- The Fisher–Yates loop of `shuffleArray`: for `i` from the given
bound down to `1`, swap position `i` with `r i % (i+1)`. -/
def fisherLoop {α : Type} (r : Nat → Nat) (l : List α) : Nat → List α
  | 0 => l
  | i + 1 => fisherLoop r (listSwap l (i + 1) (r (i + 1) % (i + 2))) i

/-- `shuffleArray(array)` from `utils/helpers.js`, with the random draws
supplied by `r`. -/
def shuffleArray {α : Type} (r : Nat → Nat) (a : List α) : List α :=
  fisherLoop r a (a.length - 1)

/-- `new PopUp()` against the module-level `instance` variable: if an
instance exists the constructor returns it, otherwise the freshly
allocated object becomes the instance.  Objects are identified by
allocation ids. -/
def newPopUp (inst : Option Nat) (fresh : Nat) : Option Nat × Nat :=
  match inst with
  | some i => (some i, i)
  | none => (some fresh, fresh)

/-- The module-level `instance` after `n` constructor invocations
(invocation `k` allocates object id `k`). -/
def popUpRun : Nat → Option Nat
  | 0 => none
  | n + 1 => (newPopUp (popUpRun n) (n + 1)).1

/-- The object returned by the `n`-th constructor invocation (1-based). -/
def popUpResult (n : Nat) : Nat := (newPopUp (popUpRun (n - 1)) n).2

/-- A fresh document state: empty head, nothing tracked, initial body. -/
def initSt : St :=
  { headLinks := [], loadedCSS := [], body := .initial, listeners := [],
    loadingVisible := false, placeholder := false, musicPlaying := false,
    redirected := false, screensHome := none, trace := [] }

/-- A concrete three-entry registry mirroring `generatedGames.js`. -/
def demoGames : Registry :=
  [("game1", ⟨"./games/game1/game1.js", "games/game1/game1.css"⟩),
   ("game2", ⟨"./games/game2/game2.js", "games/game2/game2.css"⟩),
   ("game3", ⟨"./games/game3/game3.js", "games/game3/game3.css"⟩)]

/-- Environment in which every resource loads. -/
def envAllOk : Env := ⟨fun _ => true, fun _ => true, fun _ => true⟩

/-- Environment in which every dynamic import rejects. -/
def envImportFail : Env := ⟨fun _ => true, fun _ => false, fun _ => true⟩

/-- Environment in which every stylesheet load fails. -/
def envCssFail : Env := ⟨fun _ => false, fun _ => true, fun _ => true⟩

/-! ### Helper lemmas -/

lemma hasPrefixL_refl (l : List Char) : hasPrefixL l l = true := by
  induction l with
  | nil => rfl
  | cons c t ih => simp [hasPrefixL, ih]

lemma strIncludes_self (s : String) : strIncludes s s = true := by
  unfold strIncludes
  cases h : s.toList with
  | nil => simp [hasSubstrL, List.isEmpty]
  | cons c t => simp [hasSubstrL, hasPrefixL_refl]

lemma ne_of_strIncludes_false {l n : String} (h : strIncludes l n = false) : l ≠ n := by
  intro he; subst he; rw [strIncludes_self] at h; exact Bool.noConfusion h

lemma handleError_none (e : JsError) (ctx : String) (st : St) :
    handleError e ctx none st
      = { st with trace := st.trace ++ [Ev.logged ctx (errorKind e),
                                        Ev.banner (bannerText e)] } := rfl

/-- `ensureCSS` only touches `headLinks`, `loadedCSS` and `trace`. -/
lemma ensureCSS_preserves (env : Env) (p : String) (st : St) :
    (ensureCSS env p st).body = st.body ∧
    (ensureCSS env p st).listeners = st.listeners ∧
    (ensureCSS env p st).placeholder = st.placeholder ∧
    (ensureCSS env p st).loadingVisible = st.loadingVisible ∧
    (ensureCSS env p st).musicPlaying = st.musicPlaying ∧
    (ensureCSS env p st).screensHome = st.screensHome ∧
    (ensureCSS env p st).redirected = st.redirected := by
  simp only [ensureCSS]
  split_ifs <;> simp [handleError_none]

/-- When the stylesheet at the normalized path loads, `ensureCSS`
appends at most a warning to the trace. -/
lemma ensureCSS_trace_of_ok (env : Env) (p : String) (st : St)
    (h : env.cssOk (normPath p) = true) :
    (ensureCSS env p st).trace = st.trace ∨
    (ensureCSS env p st).trace
      = st.trace ++ [Ev.warned ("Duplicate CSS detected: " ++ normPath p)] := by
  simp only [ensureCSS]
  split_ifs with h1 h2
  · exact Or.inl rfl
  · exact Or.inr rfl
  · exact Or.inl rfl

lemma ensureCSS_reportCount (env : Env) (p : String) (st : St)
    (h : env.cssOk (normPath p) = true) :
    reportCount (ensureCSS env p st) = reportCount st := by
  rcases ensureCSS_trace_of_ok env p st h with h2 | h2 <;>
    simp [reportCount, h2, List.filter_append, loggedOnly]

lemma ensureCSS_kindCount (env : Env) (p : String) (st : St) (k : EType)
    (h : env.cssOk (normPath p) = true) :
    kindCount k (ensureCSS env p st) = kindCount k st := by
  rcases ensureCSS_trace_of_ok env p st h with h2 | h2 <;>
    simp [kindCount, h2, List.filter_append, loggedKind]

lemma lookup_eq_none_of_not_mem {β : Type} (g : String) (l : List (String × β))
    (h : g ∉ l.map Prod.fst) : l.lookup g = none := by
  induction l with
  | nil => rfl
  | cons a t ih =>
      simp only [List.map_cons, List.mem_cons] at h
      push_neg at h
      obtain ⟨k, v⟩ := a
      rw [List.lookup_cons, show (g == k) = false from beq_eq_false_iff_ne.mpr h.1]
      exact ih h.2

/-- On the parsed home markup every registry key's floor is found, so
`setupFloorListeners` wires a listener for every key. -/
lemma floor_filter_home (games : Registry) :
    (games.map Prod.fst).filter (fun gid => floorQuery (BodyContent.home games) gid)
      = games.map Prod.fst := by
  apply List.filter_eq_self.mpr
  intro a ha
  simpa [floorQuery] using List.elem_eq_true_of_mem ha

lemma homeRender_fields (games : Registry) (st : St) :
    (homeRender games st).body = BodyContent.home games ∧
    (homeRender games st).listeners = games.map Prod.fst ∧
    (homeRender games st).placeholder = false ∧
    (homeRender games st).loadingVisible = st.loadingVisible ∧
    (homeRender games st).trace = st.trace := by
  unfold homeRender setupFloorListeners setBodyHome
  simp [floor_filter_home]

/-- The state reached by recovery-and-finalization: home rendered,
listeners wired, indicator hidden, placeholder gone, and exactly the
one report of the given error appended to the trace. -/
lemma recovery_final (games : Registry) (e : JsError) (st : St) :
    (loadScreenFinally
      (handleError e "app.loadScreen" (some (homeFallback games)) st)).body
        = BodyContent.home games ∧
    (loadScreenFinally
      (handleError e "app.loadScreen" (some (homeFallback games)) st)).listeners
        = games.map Prod.fst ∧
    (loadScreenFinally
      (handleError e "app.loadScreen" (some (homeFallback games)) st)).placeholder
        = false ∧
    (loadScreenFinally
      (handleError e "app.loadScreen" (some (homeFallback games)) st)).loadingVisible
        = false ∧
    (loadScreenFinally
      (handleError e "app.loadScreen" (some (homeFallback games)) st)).trace
        = st.trace ++ [Ev.logged "app.loadScreen" (errorKind e),
                       Ev.banner (bannerText e)] := by
  have h1 : handleError e "app.loadScreen" (some (homeFallback games)) st
      = homeRender games
          { st with trace := st.trace ++ [Ev.logged "app.loadScreen" (errorKind e),
                                          Ev.banner (bannerText e)] } := by
    unfold handleError homeFallback
    simp
  obtain ⟨hb, hl, hp, hv, ht⟩ := homeRender_fields games
    { st with trace := st.trace ++ [Ev.logged "app.loadScreen" (errorKind e),
                                    Ev.banner (bannerText e)] }
  refine ⟨?_, ?_, ?_, ?_, ?_⟩ <;>
    simp [loadScreenFinally, h1, hb, hl, hp, hv, ht]

/-- Shape of `loadScreen` on a screen id that is neither home nor
registered: the `try` block throws the `'Game not found'` `RESOURCE`
error from the state with the placeholder attached, the two global
stylesheets ensured and the loading indicator shown. -/
lemma loadScreen_notfound_eq (env : Env) (games : Registry) (screenId : String) (st : St)
    (hhome : screenId ≠ "home") (hl : games.lookup screenId = none) :
    loadScreen env games screenId st =
      loadScreenFinally (handleError (.gameError "Game not found" .resource)
        "app.loadScreen" (some (homeFallback games))
        { ensureCSS env "components/loadingScreen/loadingScreen.css"
            (ensureCSS env "style.css" { st with placeholder := true })
          with loadingVisible := true }) := by
  unfold loadScreen loadScreenCore
  simp only [if_neg hhome, hl]

/-- Shape of `loadScreen` on a registered game whose dynamic import
rejects: the inner catch wraps the failure as a
`GAME_INITIALIZATION` error, thrown after the game stylesheet was
ensured and the home music stopped. -/
lemma loadScreen_importfail_eq (env : Env) (games : Registry) (g : String)
    (entry : GameEntry) (st : St) (hhome : g ≠ "home")
    (hl : games.lookup g = some entry) (himp : env.importOk entry.script = false) :
    loadScreen env games g st =
      loadScreenFinally (handleError (.gameError "Failed to load game module" .gameInit)
        "app.loadScreen" (some (homeFallback games))
        (ensureCSS env entry.style
          { ensureCSS env "components/loadingScreen/loadingScreen.css"
              (ensureCSS env "style.css" { st with placeholder := true })
            with loadingVisible := true, musicPlaying := false })) := by
  unfold loadScreen loadScreenCore
  simp only [if_neg hhome, hl, himp, Bool.false_eq_true, if_false]

/-- A fresh, loadable path: `ensureCSS` attaches one link and tracks
the normalized path. -/
lemma ensureCSS_fresh_eq (env : Env) (p : String) (st : St)
    (hok : env.cssOk (normPath p) = true)
    (hmem : normPath p ∉ st.loadedCSS)
    (hlinks : ∀ l ∈ st.headLinks, strIncludes l (normPath p) = false) :
    ensureCSS env p st
      = { st with headLinks := st.headLinks ++ [normPath p],
                  loadedCSS := st.loadedCSS ++ [normPath p] } := by
  have hc : st.loadedCSS.contains (normPath p) = false := by
    rw [Bool.eq_false_iff]
    intro hcon
    exact hmem (List.elem_iff.mp hcon)
  have ha : (st.headLinks.any fun l => strIncludes l (normPath p)) = false := by
    rw [Bool.eq_false_iff]
    intro h
    obtain ⟨l, hlm, hli⟩ := List.any_eq_true.mp h
    rw [hlinks l hlm] at hli
    exact Bool.noConfusion hli
  simp only [ensureCSS, hc, ha, hok, Bool.false_eq_true, if_false, if_true]

/-- An already-tracked path: `ensureCSS` is a no-op. -/
lemma ensureCSS_tracked_eq (env : Env) (p : String) (st : St)
    (h : normPath p ∈ st.loadedCSS) : ensureCSS env p st = st := by
  simp only [ensureCSS, List.elem_iff.mpr h, if_true]

/-- An untracked, loadable path after a fresh attach: a normalization-
equivalent second request is a no-op. -/
lemma ensureCSS_second_noop (env : Env) (p q : String) (st : St)
    (hpq : normPath p = normPath q)
    (hok : env.cssOk (normPath p) = true)
    (hmem : normPath p ∉ st.loadedCSS)
    (hlinks : ∀ l ∈ st.headLinks, strIncludes l (normPath p) = false) :
    ensureCSS env q (ensureCSS env p st) = ensureCSS env p st := by
  apply ensureCSS_tracked_eq
  rw [ensureCSS_fresh_eq env p st hok hmem hlinks, ← hpq]
  simp

/-! ### Claim theorems -/

/-- C1: for every screen identifier that is neither `'home'` nor a key
of the game registry, `loadScreen` (with the two global stylesheets
loadable) ends with the home markup rendered into the body, the floor
listeners re-wired for every registry key, the placeholder removed and
the loading indicator hidden, and exactly one error report — of kind
`RESOURCE` — emitted through `handleError`; the body is the fully
rendered home screen, not empty or partial, when the operation
completes. -/
theorem c1_unknown_screen_transition_safety (env : Env) (games : Registry)
    (screenId : String) (st : St)
    (hhome : screenId ≠ "home") (hreg : screenId ∉ games.map Prod.fst)
    (hcss1 : env.cssOk (normPath "style.css") = true)
    (hcss2 : env.cssOk (normPath "components/loadingScreen/loadingScreen.css") = true) :
    (loadScreen env games screenId st).body = BodyContent.home games ∧
    (loadScreen env games screenId st).listeners = games.map Prod.fst ∧
    (loadScreen env games screenId st).placeholder = false ∧
    (loadScreen env games screenId st).loadingVisible = false ∧
    reportCount (loadScreen env games screenId st) = reportCount st + 1 ∧
    kindCount EType.resource (loadScreen env games screenId st)
      = kindCount EType.resource st + 1 := by
  rw [loadScreen_notfound_eq env games screenId st hhome
    (lookup_eq_none_of_not_mem screenId games hreg)]
  obtain ⟨hb, hl, hp, hv, ht⟩ := recovery_final games
    (.gameError "Game not found" .resource)
    { ensureCSS env "components/loadingScreen/loadingScreen.css"
        (ensureCSS env "style.css" { st with placeholder := true })
      with loadingVisible := true }
  have e1 := ensureCSS_reportCount env "style.css" { st with placeholder := true } hcss1
  have e2 := ensureCSS_reportCount env "components/loadingScreen/loadingScreen.css"
    (ensureCSS env "style.css" { st with placeholder := true }) hcss2
  have k1 := ensureCSS_kindCount env "style.css" { st with placeholder := true }
    EType.resource hcss1
  have k2 := ensureCSS_kindCount env "components/loadingScreen/loadingScreen.css"
    (ensureCSS env "style.css" { st with placeholder := true }) EType.resource hcss2
  refine ⟨hb, hl, hp, hv, ?_, ?_⟩
  · have hc := e2.trans e1
    simp only [reportCount] at hc ⊢
    rw [ht, List.filter_append]
    simp [loggedOnly, hc]
  · have hc := k2.trans k1
    simp only [kindCount] at hc ⊢
    rw [ht, List.filter_append]
    simp [loggedKind, errorKind, hc]

/-- Witness for C1 at `screenId = "unknown-game"` on a concrete
three-game registry. -/
theorem c1_witness :
    (loadScreen envAllOk demoGames "unknown-game" initSt).body
      = BodyContent.home demoGames ∧
    (loadScreen envAllOk demoGames "unknown-game" initSt).listeners
      = demoGames.map Prod.fst ∧
    reportCount (loadScreen envAllOk demoGames "unknown-game" initSt)
      = reportCount initSt + 1 ∧
    kindCount EType.resource (loadScreen envAllOk demoGames "unknown-game" initSt)
      = kindCount EType.resource initSt + 1 := by
  have h := c1_unknown_screen_transition_safety envAllOk demoGames "unknown-game" initSt
    (by decide) (by decide) rfl rfl
  exact ⟨h.1, h.2.1, h.2.2.2.2.1, h.2.2.2.2.2⟩

/-- C2: for every registered game whose dynamic import rejects,
`loadScreen` (with the stylesheets loadable) completes with the
loading indicator hidden, the placeholder removed, the home markup
rendered with a working floor listener per registry key, and exactly
one error report — of kind `GAME_INITIALIZATION` — emitted through
`handleError`. -/
theorem c2_import_reject_recovery (env : Env) (games : Registry) (g : String)
    (entry : GameEntry) (st : St)
    (hhome : g ≠ "home") (hl : games.lookup g = some entry)
    (himp : env.importOk entry.script = false)
    (hcss1 : env.cssOk (normPath "style.css") = true)
    (hcss2 : env.cssOk (normPath "components/loadingScreen/loadingScreen.css") = true)
    (hcss3 : env.cssOk (normPath entry.style) = true) :
    (loadScreen env games g st).loadingVisible = false ∧
    (loadScreen env games g st).placeholder = false ∧
    (loadScreen env games g st).body = BodyContent.home games ∧
    (loadScreen env games g st).listeners = games.map Prod.fst ∧
    reportCount (loadScreen env games g st) = reportCount st + 1 ∧
    kindCount EType.gameInit (loadScreen env games g st)
      = kindCount EType.gameInit st + 1 := by
  rw [loadScreen_importfail_eq env games g entry st hhome hl himp]
  obtain ⟨hb, hli, hp, hv, ht⟩ := recovery_final games
    (.gameError "Failed to load game module" .gameInit)
    (ensureCSS env entry.style
      { ensureCSS env "components/loadingScreen/loadingScreen.css"
          (ensureCSS env "style.css" { st with placeholder := true })
        with loadingVisible := true, musicPlaying := false })
  have e1 := ensureCSS_reportCount env "style.css" { st with placeholder := true } hcss1
  have e2 := ensureCSS_reportCount env "components/loadingScreen/loadingScreen.css"
    (ensureCSS env "style.css" { st with placeholder := true }) hcss2
  have e3 := ensureCSS_reportCount env entry.style
    ({ ensureCSS env "components/loadingScreen/loadingScreen.css"
        (ensureCSS env "style.css" { st with placeholder := true })
      with loadingVisible := true, musicPlaying := false } : St) hcss3
  have k1 := ensureCSS_kindCount env "style.css" { st with placeholder := true }
    EType.gameInit hcss1
  have k2 := ensureCSS_kindCount env "components/loadingScreen/loadingScreen.css"
    (ensureCSS env "style.css" { st with placeholder := true }) EType.gameInit hcss2
  have k3 := ensureCSS_kindCount env entry.style
    ({ ensureCSS env "components/loadingScreen/loadingScreen.css"
        (ensureCSS env "style.css" { st with placeholder := true })
      with loadingVisible := true, musicPlaying := false } : St) EType.gameInit hcss3
  refine ⟨hv, hp, hb, hli, ?_, ?_⟩
  · have hc := e3.trans (e2.trans e1)
    simp only [reportCount] at hc ⊢
    rw [ht, List.filter_append]
    simp [loggedOnly, hc]
  · have hc := k3.trans (k2.trans k1)
    simp only [kindCount] at hc ⊢
    rw [ht, List.filter_append]
    simp [loggedKind, errorKind, hc]

/-- C3: on a path whose stylesheet load succeeds (untracked and with no
matching link attached beforehand), calling `ensureCSS` twice leaves
exactly one link for the normalized path in the head and the tracked
set contains it exactly once; the second call changes nothing. -/
theorem c3_ensureCSS_idempotent (env : Env) (p : String) (st : St)
    (hok : env.cssOk (normPath p) = true)
    (hmem : normPath p ∉ st.loadedCSS)
    (hlinks : ∀ l ∈ st.headLinks, strIncludes l (normPath p) = false) :
    ensureCSS env p (ensureCSS env p st) = ensureCSS env p st ∧
    (ensureCSS env p (ensureCSS env p st)).headLinks.count (normPath p) = 1 ∧
    (ensureCSS env p (ensureCSS env p st)).loadedCSS.count (normPath p) = 1 := by
  have hnl : normPath p ∉ st.headLinks := fun hm => by
    have := hlinks (normPath p) hm
    rw [strIncludes_self] at this
    exact Bool.noConfusion this
  have h2 := ensureCSS_second_noop env p p st rfl hok hmem hlinks
  refine ⟨h2, ?_, ?_⟩ <;>
    rw [h2, ensureCSS_fresh_eq env p st hok hmem hlinks] <;>
    simp [List.count_append, List.count_eq_zero.mpr, hmem, hnl]

/-- Witness for C3 at `p = "style.css"` on the fresh state. -/
theorem c3_witness :
    ensureCSS envAllOk "style.css" (ensureCSS envAllOk "style.css" initSt)
      = ensureCSS envAllOk "style.css" initSt ∧
    (ensureCSS envAllOk "style.css" (ensureCSS envAllOk "style.css" initSt)).headLinks.count
      (normPath "style.css") = 1 ∧
    (ensureCSS envAllOk "style.css" (ensureCSS envAllOk "style.css" initSt)).loadedCSS.count
      (normPath "style.css") = 1 :=
  c3_ensureCSS_idempotent envAllOk "style.css" initSt rfl (by decide) (by decide)

/-- C5: on a path whose stylesheet load fails (untracked, no matching
link attached), `ensureCSS` forwards one `RESOURCE` error report to the
global error facility and leaves the tracked set unchanged. -/
theorem c5_css_failure_reported_untracked (env : Env) (p : String) (st : St)
    (hfail : env.cssOk (normPath p) = false)
    (hmem : normPath p ∉ st.loadedCSS)
    (hlinks : ∀ l ∈ st.headLinks, strIncludes l (normPath p) = false) :
    (ensureCSS env p st).loadedCSS = st.loadedCSS ∧
    (ensureCSS env p st).trace = st.trace ++
      [Ev.logged "App.ensureCSS" EType.resource,
       Ev.banner "Липсват някои ресурси. Моля, презаредете страницата."] := by
  have hc : st.loadedCSS.contains (normPath p) = false := by
    rw [Bool.eq_false_iff]
    intro hcon
    exact hmem (List.elem_iff.mp hcon)
  have ha : (st.headLinks.any fun l => strIncludes l (normPath p)) = false := by
    rw [Bool.eq_false_iff]
    intro h
    obtain ⟨l, hlm, hli⟩ := List.any_eq_true.mp h
    rw [hlinks l hlm] at hli
    exact Bool.noConfusion hli
  simp [ensureCSS, hc, ha, hfail, hmem, errorKind, bannerText, handleError_none]

/-- Witness for C5 at `p = "style.css"` in the environment where every
stylesheet load fails. -/
theorem c5_witness :
    (ensureCSS envCssFail "style.css" initSt).loadedCSS = initSt.loadedCSS ∧
    (ensureCSS envCssFail "style.css" initSt).trace = initSt.trace ++
      [Ev.logged "App.ensureCSS" EType.resource,
       Ev.banner "Липсват някои ресурси. Моля, презаредете страницата."] :=
  c5_css_failure_reported_untracked envCssFail "style.css" initSt rfl (by decide) (by decide)

/-- C7: two input paths that normalize to the same identifier are the
same tracked resource: after a successful `ensureCSS p`, the call
`ensureCSS q` returns immediately with no change at all, and only one
link for the shared normalized path is attached. -/
theorem c7_normalized_paths_same_resource (env : Env) (p q : String) (st : St)
    (hpq : normPath p = normPath q)
    (hok : env.cssOk (normPath p) = true)
    (hmem : normPath p ∉ st.loadedCSS)
    (hlinks : ∀ l ∈ st.headLinks, strIncludes l (normPath p) = false) :
    ensureCSS env q (ensureCSS env p st) = ensureCSS env p st ∧
    (ensureCSS env q (ensureCSS env p st)).headLinks.count (normPath p) = 1 := by
  have hnl : normPath p ∉ st.headLinks := fun hm => by
    have := hlinks (normPath p) hm
    rw [strIncludes_self] at this
    exact Bool.noConfusion this
  have h2 := ensureCSS_second_noop env p q st hpq hok hmem hlinks
  refine ⟨h2, ?_⟩
  rw [h2, ensureCSS_fresh_eq env p st hok hmem hlinks]
  simp [List.count_append, List.count_eq_zero.mpr, hnl]

/-- Witness for C7: `"/style.css/"` and `"style.css"` normalize to the
same identifier; after loading the first, the second request is a
no-op. -/
theorem c7_witness :
    ensureCSS envAllOk "style.css" (ensureCSS envAllOk "/style.css/" initSt)
      = ensureCSS envAllOk "/style.css/" initSt ∧
    (ensureCSS envAllOk "style.css"
      (ensureCSS envAllOk "/style.css/" initSt)).headLinks.count
        (normPath "/style.css/") = 1 :=
  c7_normalized_paths_same_resource envAllOk "/style.css/" "style.css" initSt
    (by decide) rfl (by decide) (by decide)

/-- C6: the rendered home screen has exactly one floor element per
registry entry, in the exact reverse of the registry key order; for
keys `game1, game2, game3` the floor order is `game3, game2, game1`. -/
theorem c6_home_floor_reverse_order (games : Registry) :
    (floorDivs games).length = games.length ∧
    (∀ i, i < games.length →
      (homeFloorIds games)[i]? = (games.map Prod.fst)[games.length - 1 - i]?) ∧
    (∀ e1 e2 e3 : GameEntry,
      homeFloorIds [("game1", e1), ("game2", e2), ("game3", e3)]
        = ["game3", "game2", "game1"]) := by
  refine ⟨by simp [floorDivs, homeFloorIds], ?_, by intro e1 e2 e3; simp [homeFloorIds]⟩
  intro i hi
  unfold homeFloorIds
  rw [List.getElem?_reverse (by simpa using hi)]
  simp

/-- Witness for C6 on the concrete three-game registry: three floors,
and the first rendered floor id is the last registry key. -/
theorem c6_witness :
    (floorDivs demoGames).length = demoGames.length ∧
    (homeFloorIds demoGames)[0]? = (demoGames.map Prod.fst)[2]? := by
  have h := c6_home_floor_reverse_order demoGames
  exact ⟨h.1, h.2.1 0 (by decide)⟩

/-- C8: every recovery callback given to `handleError` is invoked on
the state in which the error has already been logged and the banner
displayed; if the callback throws, `handleError` catches it, performs
the last-resort navigation to the application root and still returns
normally (it never propagates the exception). -/
theorem c8_handleError_fallback_order (e : JsError) (ctx : String)
    (f : St → St × Bool) (st : St) :
    ∃ stCall : St,
      stCall.trace = st.trace ++ [Ev.logged ctx (errorKind e), Ev.banner (bannerText e)] ∧
      ((f stCall).2 = false → handleError e ctx (some f) st = (f stCall).1) ∧
      ((f stCall).2 = true →
        (handleError e ctx (some f) st).redirected = true ∧
        handleError e ctx (some f) st
          = { (f stCall).1 with
              redirected := true
              trace := (f stCall).1.trace ++ [Ev.redirect] }) := by
  refine ⟨{ st with trace := st.trace ++ [Ev.logged ctx (errorKind e),
                                          Ev.banner (bannerText e)] }, rfl, ?_, ?_⟩
  · intro h
    simp [handleError, h]
  · intro h
    simp [handleError, h]

/-- Witness for C8 with a concrete error and an always-throwing
callback on the fresh state. -/
theorem c8_witness :
    ∃ stCall : St,
      stCall.trace = initSt.trace
        ++ [Ev.logged "app.loadScreen" (errorKind (JsError.plainError "boom")),
            Ev.banner (bannerText (JsError.plainError "boom"))] ∧
      (((fun s => (s, true)) stCall).2 = false →
        handleError (JsError.plainError "boom") "app.loadScreen"
          (some (fun s => (s, true))) initSt = ((fun s => (s, true)) stCall).1) ∧
      (((fun s => (s, true)) stCall).2 = true →
        (handleError (JsError.plainError "boom") "app.loadScreen"
          (some (fun s => (s, true))) initSt).redirected = true ∧
        handleError (JsError.plainError "boom") "app.loadScreen"
          (some (fun s => (s, true))) initSt
          = { ((fun s => (s, true)) stCall).1 with
              redirected := true
              trace := ((fun s => (s, true)) stCall).1.trace ++ [Ev.redirect] }) :=
  c8_handleError_fallback_order (JsError.plainError "boom") "app.loadScreen"
    (fun s => (s, true)) initSt

/-- `unloadCSS` when no attached link matches: warn only. -/
lemma unloadCSS_nomatch_eq (p : String) (st : St) (hne : p ≠ "")
    (hlinks : ∀ l ∈ st.headLinks, strIncludes l (jsStripLead p) = false) :
    unloadCSS p st
      = { st with trace := st.trace
            ++ [Ev.warned ("CSS file not found: " ++ jsStripLead p)] } := by
  have ha : (st.headLinks.any fun l => strIncludes l (jsStripLead p)) = false := by
    rw [Bool.eq_false_iff]
    intro h
    obtain ⟨l, hlm, hli⟩ := List.any_eq_true.mp h
    rw [hlinks l hlm] at hli
    exact Bool.noConfusion hli
  simp only [unloadCSS, if_neg hne, ha, Bool.false_eq_true, if_false]

/-- C4: unloading a path with no matching attached stylesheet is
non-fatal: `unloadCSS` returns normally, emits only a `console.warn`
(no report through the error facility, no user banner) and changes
nothing else; in particular after a successful load-then-unload round
trip a second `unloadCSS` is exactly such a warn-only no-op. -/
theorem c4_unload_missing_nonfatal (env : Env) (p : String) (st : St)
    (hne : p ≠ "")
    (hlinks : ∀ l ∈ st.headLinks, strIncludes l (jsStripLead p) = false) :
    unloadCSS p st
      = { st with trace := st.trace
            ++ [Ev.warned ("CSS file not found: " ++ jsStripLead p)] } ∧
    (normPath p = p → jsStripLead p = p → p ∉ st.loadedCSS →
      env.cssOk p = true →
      unloadCSS p (unloadCSS p (ensureCSS env p st))
        = { st with trace := st.trace ++ [Ev.warned ("CSS file not found: " ++ p)] }) := by
  refine ⟨unloadCSS_nomatch_eq p st hne hlinks, ?_⟩
  intro hnp hjs hmem hok
  rw [hjs] at hlinks
  have hfresh : ensureCSS env p st
      = { st with headLinks := st.headLinks ++ [p], loadedCSS := st.loadedCSS ++ [p] } := by
    have := ensureCSS_fresh_eq env p st (by rwa [hnp]) (by rwa [hnp]) (by rwa [hnp])
    rwa [hnp] at this
  have hround : unloadCSS p (ensureCSS env p st) = st := by
    rw [hfresh]
    have ha : ((st.headLinks ++ [p]).any fun l => strIncludes l p) = true := by
      rw [List.any_eq_true]
      exact ⟨p, by simp, strIncludes_self p⟩
    have hfilt : ((st.headLinks ++ [p]).filter fun l => !(strIncludes l p))
        = st.headLinks := by
      rw [List.filter_append]
      rw [List.filter_eq_self.mpr (fun l hl => by rw [hlinks l hl]; rfl)]
      simp [strIncludes_self]
    have herase : (st.loadedCSS ++ [p]).erase p = st.loadedCSS := by
      rw [List.erase_append_right _ hmem, List.erase_cons_head]
      simp
    simp only [unloadCSS, if_neg hne, hjs, ha, if_true, untrackCSS]
    simp [hfilt, herase, List.elem_iff]
  rw [hround, unloadCSS_nomatch_eq p st hne (by rwa [hjs]), hjs]

/-- Witness for C4 at `p = "style.css"` on the fresh state (no link
attached), including the load-unload-unload round trip. -/
theorem c4_witness :
    unloadCSS "style.css" initSt
      = { initSt with trace := initSt.trace
            ++ [Ev.warned ("CSS file not found: " ++ jsStripLead "style.css")] } ∧
    unloadCSS "style.css"
        (unloadCSS "style.css" (ensureCSS envAllOk "style.css" initSt))
      = { initSt with trace := initSt.trace
            ++ [Ev.warned ("CSS file not found: " ++ "style.css")] } := by
  have h := c4_unload_missing_nonfatal envAllOk "style.css" initSt
    (by decide) (by decide)
  exact ⟨h.1, h.2 (by decide) (by decide) (by decide) rfl⟩

/-- Moving the element at position `m` of `t` to the front while
putting `c` in its place is a permutation of putting `c` at the front. -/
lemma swap_cons_perm {α : Type} :
    ∀ (m : Nat) (t : List α) (b c : α), t.get? m = some b →
      List.Perm (b :: t.set m c) (c :: t) := by
  intro m
  induction m with
  | zero =>
      intro t b c h
      cases t with
      | nil => simp at h
      | cons d t' =>
          have hdb : d = b := by simpa using h
          rw [← hdb]
          simpa using List.Perm.swap c d t'
  | succ m ih =>
      intro t b c h
      cases t with
      | nil => simp at h
      | cons d t' =>
          have h' : t'.get? m = some b := by simpa using h
          have s1 : List.Perm (b :: d :: t'.set m c) (d :: b :: t'.set m c) :=
            List.Perm.swap d b (t'.set m c)
          have s2 : List.Perm (d :: b :: t'.set m c) (d :: c :: t') :=
            List.Perm.cons d (ih t' b c h')
          have s3 : List.Perm (d :: c :: t') (c :: d :: t') := List.Perm.swap c d t'
          simpa using (s1.trans s2).trans s3

/-- Writing `b` at position `i` and `a` at position `j`, where `a`
and `b` were the original elements at `i` and `j`, permutes the list. -/
lemma set_set_perm {α : Type} :
    ∀ (l : List α) (i j : Nat) (a b : α), l.get? i = some a → l.get? j = some b →
      List.Perm ((l.set i b).set j a) l := by
  intro l
  induction l with
  | nil => intro i j a b h _; simp at h
  | cons c t ih =>
      intro i j a b hi hj
      cases i with
      | zero =>
          have hca : c = a := by simpa using hi
          cases j with
          | zero =>
              rw [← hca]
              simp
          | succ m =>
              have hm : t.get? m = some b := by simpa using hj
              rw [← hca]
              simpa using swap_cons_perm m t b c hm
      | succ n =>
          cases j with
          | zero =>
              have hcb : c = b := by simpa using hj
              have hn : t.get? n = some a := by simpa using hi
              rw [← hcb]
              simpa using swap_cons_perm n t a c hn
          | succ m =>
              have hn : t.get? n = some a := by simpa using hi
              have hm : t.get? m = some b := by simpa using hj
              simpa using List.Perm.cons c (ih n m a b hn hm)

lemma listSwap_perm {α : Type} (l : List α) (i j : Nat) :
    List.Perm (listSwap l i j) l := by
  unfold listSwap
  cases hi : l.get? i with
  | none => exact List.Perm.refl l
  | some a =>
      cases hj : l.get? j with
      | none => exact List.Perm.refl l
      | some b => exact set_set_perm l i j a b hi hj

lemma fisherLoop_perm {α : Type} (r : Nat → Nat) :
    ∀ (i : Nat) (l : List α), List.Perm (fisherLoop r l i) l := by
  intro i
  induction i with
  | zero => intro l; exact List.Perm.refl l
  | succ n ih =>
      intro l
      exact (ih _).trans (listSwap_perm l (n + 1) (r (n + 1) % (n + 2)))

/-- C9: `shuffleArray` keeps the array's length and its contents form a
permutation (the same multiset) of the original; for arrays of length
at most one the contents are unchanged. -/
theorem c9_shuffle_permutes {α : Type} (r : Nat → Nat) (a : List α) :
    (shuffleArray r a).length = a.length ∧
    List.Perm (shuffleArray r a) a ∧
    (a.length ≤ 1 → shuffleArray r a = a) := by
  have hp : List.Perm (shuffleArray r a) a := fisherLoop_perm r (a.length - 1) a
  refine ⟨hp.length_eq, hp, ?_⟩
  intro h
  have h0 : a.length - 1 = 0 := by omega
  rw [shuffleArray, h0]
  rfl

/-- Witness for C9 on a concrete 5-element array and random stream. -/
theorem c9_witness :
    (shuffleArray (fun n => n * 7 + 3) [1, 2, 3, 4, 5]).length = 5 ∧
    List.Perm (shuffleArray (fun n => n * 7 + 3) [1, 2, 3, 4, 5]) [1, 2, 3, 4, 5] ∧
    shuffleArray (fun n => n * 7 + 3) ([42] : List Nat) = [42] := by
  have h := c9_shuffle_permutes (fun n => n * 7 + 3) [1, 2, 3, 4, 5]
  exact ⟨h.1, h.2.1, (c9_shuffle_permutes (fun n => n * 7 + 3) [42]).2.2 (by decide)⟩

lemma popUpRun_eq_one (n : Nat) (h : 1 ≤ n) : popUpRun n = some 1 := by
  induction n with
  | zero => omega
  | succ m ih =>
      cases m with
      | zero => rfl
      | succ k =>
          have hm := ih (by omega)
          show (newPopUp (popUpRun (k + 1)) (k + 1 + 1)).1 = some 1
          rw [hm]
          rfl

/-- C10: the `PopUp` constructor is a process-wide singleton — every
invocation after the first returns the very first allocated instance,
so all call sites share one popup object. -/
theorem c10_popup_singleton (n : Nat) (h : 1 ≤ n) :
    popUpResult n = popUpResult 1 ∧ popUpResult n = 1 := by
  cases n with
  | zero => omega
  | succ m =>
      cases m with
      | zero => exact ⟨rfl, rfl⟩
      | succ k =>
          have hr : popUpRun (k + 1) = some 1 := popUpRun_eq_one (k + 1) (by omega)
          have h2 : popUpResult (k + 1 + 1) = 1 := by
            unfold popUpResult
            have hk : k + 1 + 1 - 1 = k + 1 := by omega
            rw [hk, hr]
            rfl
          exact ⟨h2.trans (Eq.symm (show popUpResult 1 = 1 from rfl)), h2⟩

/-- Witness for C10 at the fifth invocation. -/
theorem c10_witness : popUpResult 5 = popUpResult 1 ∧ popUpResult 5 = 1 :=
  c10_popup_singleton 5 (by decide)

/-- Witness for C2 at `g = "game2"` in an environment whose imports
all reject. -/
theorem c2_witness :
    (loadScreen envImportFail demoGames "game2" initSt).loadingVisible = false ∧
    (loadScreen envImportFail demoGames "game2" initSt).placeholder = false ∧
    (loadScreen envImportFail demoGames "game2" initSt).body
      = BodyContent.home demoGames ∧
    (loadScreen envImportFail demoGames "game2" initSt).listeners
      = demoGames.map Prod.fst ∧
    kindCount EType.gameInit (loadScreen envImportFail demoGames "game2" initSt)
      = kindCount EType.gameInit initSt + 1 := by
  have h := c2_import_reject_recovery envImportFail demoGames "game2"
    ⟨"./games/game2/game2.js", "games/game2/game2.css"⟩ initSt
    (by decide) (by decide) rfl rfl rfl rfl
  exact ⟨h.1, h.2.1, h.2.2.1, h.2.2.2.1, h.2.2.2.2.2⟩
